import Mathlib

/-!
Verification of the question-lifecycle layer of `gemini-cli`.

The embedding follows the TypeScript sources:
- `src/packages/cli/src/services/questionManager.ts` (the Question Ledger),
- `src/unnamed/part_000` (`HttpServerService`, Front End A),
- `src/packages/cli/src/services/mcpServerService.ts` (Front End B: the
  `ask` tool handler with its bounded poll loop, and the `/mcp` session
  routing),
- `src/packages/cli/src/services/tuiIntegration.ts` (the Responder Bridge).

JavaScript `Map` objects are embedded as association lists (`JsMap`) whose
`set` replaces an existing binding in place, preserving insertion order,
exactly as `Map.prototype.set` does.  `Date.now()` / `new Date()` and
`generateQuestionId` are modelled as externally supplied arguments (`now`,
fresh id): the code uses them only as opaque data.
-/

namespace GeminiCli

/-- A JavaScript `Map`, embedded as an association list in insertion order. -/
abbrev JsMap (κ α : Type) := List (κ × α)

/-- Embeds `Map.prototype.get`. -/
def JsMap.get {κ α : Type} [DecidableEq κ] : JsMap κ α → κ → Option α
  | [], _ => none
  | (k, v) :: rest, i => if k = i then some v else JsMap.get rest i

/-- Embeds `Map.prototype.set`: replaces an existing binding in place, else appends. -/
def JsMap.set {κ α : Type} [DecidableEq κ] : JsMap κ α → κ → α → JsMap κ α
  | [], i, q => [(i, q)]
  | (k, v) :: rest, i, q =>
      if k = i then (i, q) :: rest else (k, v) :: JsMap.set rest i q

/-- Embeds `Map.prototype.delete`. -/
def JsMap.del {κ α : Type} [DecidableEq κ] : JsMap κ α → κ → JsMap κ α
  | [], _ => []
  | (k, v) :: rest, i => if k = i then rest else (k, v) :: JsMap.del rest i

/-- Embeds `Array.from(map.values())`. -/
def JsMap.values {κ α : Type} (m : JsMap κ α) : List α := m.map Prod.snd

theorem JsMap.get_set {κ α : Type} [DecidableEq κ]
    (m : JsMap κ α) (i j : κ) (q : α) :
    (m.set i q).get j = if j = i then some q else m.get j := by
  induction m with
  | nil =>
      simp only [JsMap.set, JsMap.get]
      by_cases h : j = i
      · subst h; simp
      · rw [if_neg (fun hh => h hh.symm), if_neg h]
  | cons hd tl ih =>
      obtain ⟨k, v⟩ := hd
      simp only [JsMap.set]
      by_cases hk : k = i
      · subst hk
        simp only [if_pos rfl, JsMap.get]
        by_cases h : j = k
        · subst h; simp
        · have hkj : ¬k = j := fun hh => h hh.symm
          simp only [if_neg h, if_neg hkj]
      · rw [if_neg hk]
        simp only [JsMap.get]
        by_cases hkj : k = j
        · subst hkj
          simp [hk]
        · simp only [if_neg hkj, ih]

/-- Status field `'thinking' | 'error' | 'finished'` from `questionManager.ts`.
In the specification's vocabulary: `thinking` = pending, `finished` =
answered, `error` = failed. -/
inductive Status : Type
  | thinking
  | error
  | finished
deriving DecidableEq, Repr

/-- Interface `QuestionState` from `questionManager.ts` lines 1-8.  `createdAt : Date`
is embedded as a `Nat` timestamp. -/
structure QuestionState : Type where
  id : String
  status : Status
  request : String
  response : Option String
  error : Option String
  createdAt : Nat
deriving DecidableEq, Repr

/-- The Question Ledger: `QuestionManager` from `questionManager.ts`, holding
`private questions = new Map<string, QuestionState>()`. -/
structure QuestionManager : Type where
  questions : JsMap String QuestionState
deriving DecidableEq, Repr

namespace QuestionManager

/-- A freshly constructed `QuestionManager`. -/
def empty : QuestionManager := ⟨[]⟩

/-- Operation `submitQuestion` (`questionManager.ts` lines 17-28): creates the Question
with `status: 'thinking'` and no response/error, stores it, returns the id.
`generateQuestionId()` and `new Date()` are the supplied `id` and `now`.
Note: the source performs no validation here. -/
def submitQuestion (m : QuestionManager) (id : String) (now : Nat)
    (text : String) : String × QuestionManager :=
  (id, ⟨m.questions.set id ⟨id, Status.thinking, text, none, none, now⟩⟩)

/-- Operation `getAnswer` (lines 30-32): `this.questions.get(questionId) || null`. -/
def getAnswer (m : QuestionManager) (questionId : String) :
    Option QuestionState :=
  m.questions.get questionId

/-- Operation `notifyResponseComplete` (lines 34-40): if the id is present, sets
`status = 'finished'` and `response`, unconditionally — there is no check
that the Question is still `thinking`. -/
def notifyResponseComplete (m : QuestionManager) (questionId response : String) :
    QuestionManager :=
  match m.questions.get questionId with
  | none => m
  | some q =>
      ⟨m.questions.set questionId
        { q with status := Status.finished, response := some response }⟩

/-- Operation `notifyError` (lines 42-48): if the id is present, sets
`status = 'error'` and `error`, unconditionally. -/
def notifyError (m : QuestionManager) (questionId error : String) :
    QuestionManager :=
  match m.questions.get questionId with
  | none => m
  | some q =>
      ⟨m.questions.set questionId
        { q with status := Status.error, error := some error }⟩

/-- Operation `getAllQuestions` (lines 50-52): `Array.from(this.questions.values())`. -/
def getAllQuestions (m : QuestionManager) : List QuestionState :=
  m.questions.values

end QuestionManager

/-- A sequence of Ledger operations, used to describe the reachable
`QuestionManager` states.  `submit` carries the generated id and timestamp
explicitly (in the source they come from `generateQuestionId()` and
`new Date()`). -/
inductive LedgerOp : Type
  | submit (id : String) (now : Nat) (text : String)
  | resolve (id response : String)
  | fail (id errorMessage : String)
deriving DecidableEq, Repr

/-- Apply one Ledger operation: `submit` is `submitQuestion`, `resolve` is
`notifyResponseComplete`, `fail` is `notifyError`. -/
def applyOp (m : QuestionManager) : LedgerOp → QuestionManager
  | LedgerOp.submit id now text => (m.submitQuestion id now text).2
  | LedgerOp.resolve id r => m.notifyResponseComplete id r
  | LedgerOp.fail id e => m.notifyError id e

/-- The `QuestionManager` state reached by running a sequence of operations
from a freshly constructed manager. -/
def runOps (ops : List LedgerOp) : QuestionManager :=
  ops.foldl applyOp QuestionManager.empty

/-- Result of the `POST /question` route of `HttpServerService`
(`src/unnamed/part_000`). -/
inductive HttpResult : Type
  | ok (questionId : String)
  | badRequest (message : String)
deriving DecidableEq, Repr

/-- Embeds JavaScript `String.prototype.trim`: strip leading and trailing
whitespace characters. -/
def jsTrim (s : String) : String :=
  ⟨((s.data.dropWhile Char.isWhitespace).reverse.dropWhile
      Char.isWhitespace).reverse⟩

namespace HttpServerService

/-- The validation message of `POST /question`. -/
def invalidTextMessage : String :=
  "Invalid request: text field is required and must be non-empty string"

/-- The `POST /question` handler (`src/unnamed/part_000` lines 35-58).
`body = none` models a missing or non-string `text` field (the
`!text || typeof text !== 'string'` checks); a present string fails
validation exactly when `text.trim().length === 0`.  On success the handler
calls `submitQuestion(text.trim())` and replies `{ questionId }`; the
fire-and-forget `onSubmitQuestion` callback does not touch the Ledger. -/
def postQuestion (m : QuestionManager) (body : Option String)
    (freshId : String) (now : Nat) : HttpResult × QuestionManager :=
  match body with
  | none => (HttpResult.badRequest invalidTextMessage, m)
  | some text =>
      if (jsTrim text).length = 0 then
        (HttpResult.badRequest invalidTextMessage, m)
      else
        let (questionId, m1) := m.submitQuestion freshId now (jsTrim text)
        (HttpResult.ok questionId, m1)

end HttpServerService

/-- The metadata-bearing success payload of the `ask` tool
(`mcpServerService.ts` lines 128-135): the returned text embeds the
response, the question id, its status, its creation time, the polling time
in seconds (`retries * 2`) and the stream indicator. -/
structure AskSuccess : Type where
  questionId : String
  status : Status
  response : String
  createdAt : Nat
  pollingSeconds : Nat
  streamed : Bool
deriving DecidableEq, Repr

/-- Outcome of one `ask` tool invocation (`mcpServerService.ts` lines
86-148).  The three non-success cases are all `throw new Error(...)` in the
source, distinguished here by throw site; each carries its message. -/
inductive AskOutcome : Type
  | answered (payload : AskSuccess)
  | failed (message : String)
  | timeout (message : String)
  | routingError (message : String)
deriving DecidableEq, Repr

namespace McpServerService

/-- Constant `const maxRetries = 240; // 240 * 2 seconds = 8 minutes maximum`. -/
def maxRetries : Nat := 240

/-- Constant `const pollInterval = 2000; // 2 seconds between polls` (milliseconds). -/
def pollInterval : Nat := 2000

/-- The bounded poll loop of the `ask` handler (`mcpServerService.ts` lines
109-148).  `trace k` is the value `this.questionManager.getAnswer(questionId)`
returned at poll attempt `k` (the shared Ledger is mutated concurrently by
the TUI, so the loop reads it afresh each attempt); `retries` is the current
attempt counter, `fuel` the remaining attempts (`maxRetries - retries`).
Exhausting the loop throws the timeout error. -/
def pollFrom (trace : Nat → Option QuestionState) (questionId : String)
    (stream : Bool) : Nat → Nat → AskOutcome
  | _, 0 => AskOutcome.timeout "TUI response timeout after 8 minutes"
  | retries, fuel + 1 =>
      match trace retries with
      | some q =>
          if q.status = Status.finished ∨ q.status = Status.error then
            if q.status = Status.error then
              AskOutcome.failed (q.error.getD "TUI processing failed")
            else
              AskOutcome.answered
                ⟨questionId, q.status, q.response.getD "No response received",
                  q.createdAt, retries * 2, stream⟩
          else
            pollFrom trace questionId stream (retries + 1) fuel
      | none => pollFrom trace questionId stream (retries + 1) fuel

/-- The `ask` tool handler (`mcpServerService.ts` lines 86-148): submit the
text to the Ledger, then — only if a TUI submit handler is wired — run the
bounded poll loop; with no handler configured, throw the routing error.  In
both cases the Ledger entry created by `submitQuestion` stays in the
returned manager state. -/
def ask (m : QuestionManager) (hasHandler : Bool) (freshId : String)
    (now : Nat) (text : String) (stream : Bool)
    (trace : Nat → Option QuestionState) : AskOutcome × QuestionManager :=
  let (questionId, m1) := m.submitQuestion freshId now text
  if hasHandler then
    (pollFrom trace questionId stream 0 maxRetries, m1)
  else
    (AskOutcome.routingError
      "MCP server not properly integrated with TUI - no submit handler set",
      m1)

/-- Response of an `/mcp` route as far as session routing is concerned:
either the request is handed to a transport, or a 400 client error is
returned with the given body. -/
inductive McpRouteResult : Type
  | handled
  | status400 (body : String)
deriving DecidableEq, Repr

/-- Session routing of `POST /mcp` (`mcpServerService.ts` lines 161-228).
`transports` is the set of live session ids in `this.transports`;
`isInitialize` is `isInitializeRequest(req.body)`.  A request with a session
id present in the table, or an initialize request with no session id, is
handed to a transport; anything else gets the 400 JSON-RPC error
`code -32000, 'Bad Request: No valid session ID provided'`. -/
def postMcp (transports : List String) (sessionId : Option String)
    (isInitialize : Bool) : McpRouteResult :=
  match sessionId with
  | some sid =>
      if transports.contains sid then McpRouteResult.handled
      else McpRouteResult.status400 "Bad Request: No valid session ID provided"
  | none =>
      if isInitialize then McpRouteResult.handled
      else McpRouteResult.status400 "Bad Request: No valid session ID provided"

/-- Session routing of `GET /mcp` (lines 231-242): a missing or unknown
session id gets `res.status(400).send('Invalid or missing session ID')`. -/
def getMcp (transports : List String) (sessionId : Option String) :
    McpRouteResult :=
  match sessionId with
  | some sid =>
      if transports.contains sid then McpRouteResult.handled
      else McpRouteResult.status400 "Invalid or missing session ID"
  | none => McpRouteResult.status400 "Invalid or missing session ID"

/-- Session routing of `DELETE /mcp` (lines 245-265): identical guard to
`GET /mcp`. -/
def deleteMcp (transports : List String) (sessionId : Option String) :
    McpRouteResult :=
  match sessionId with
  | some sid =>
      if transports.contains sid then McpRouteResult.handled
      else McpRouteResult.status400 "Invalid or missing session ID"
  | none => McpRouteResult.status400 "Invalid or missing session ID"

end McpServerService

/-- State of `TuiIntegration` (`tuiIntegration.ts`).  The values of
`pendingQuestions` are `{ buffer, onSubmit }` UI handles, irrelevant to the
question lifecycle, so the map is embedded with `Unit` values; the callbacks
object holds external functions and is omitted. -/
structure TuiIntegration : Type where
  pendingQuestions : JsMap String Unit
  currentQuestionId : Option String
deriving DecidableEq, Repr

namespace TuiIntegration

/-- Operation `notifyResponseComplete` (`tuiIntegration.ts` lines 57-66): after
invoking the external callback, delete the question from
`pendingQuestions` and clear `currentQuestionId` only when it equals the
notified id. -/
def notifyResponseComplete (st : TuiIntegration) (questionId : String) :
    TuiIntegration :=
  { pendingQuestions := st.pendingQuestions.del questionId,
    currentQuestionId :=
      if st.currentQuestionId = some questionId then none
      else st.currentQuestionId }

/-- Operation `notifyError` (`tuiIntegration.ts` lines 68-77): same cleanup as
`notifyResponseComplete`. -/
def notifyError (st : TuiIntegration) (questionId : String) :
    TuiIntegration :=
  { pendingQuestions := st.pendingQuestions.del questionId,
    currentQuestionId :=
      if st.currentQuestionId = some questionId then none
      else st.currentQuestionId }

end TuiIntegration

namespace Ref

/-- Reference-semantics embedding of `QuestionManager`
(`questionManager.ts`).  In JavaScript, `Map.prototype.get` returns the
stored object itself, and `notifyResponseComplete` / `notifyError` assign
to that object's fields in place.  To express this sharing, `questions`
maps ids to object references (`Nat` addresses) into an explicit `heap`,
`submitQuestion` allocates, and the notify operations overwrite the heap
cell in place. -/
structure QuestionManager : Type where
  questions : JsMap String Nat
  heap : JsMap Nat QuestionState
  nextRef : Nat
deriving DecidableEq, Repr

/-- A freshly constructed manager: empty map, empty heap. -/
def QuestionManager.empty : QuestionManager := ⟨[], [], 0⟩

/-- Operation `submitQuestion`: allocate the Question object and bind the id to its
reference. -/
def QuestionManager.submitQuestion (m : QuestionManager) (id : String)
    (now : Nat) (text : String) : String × QuestionManager :=
  (id,
    { questions := m.questions.set id m.nextRef,
      heap :=
        m.heap.set m.nextRef ⟨id, Status.thinking, text, none, none, now⟩,
      nextRef := m.nextRef + 1 })

/-- Operation `getAnswer`: `this.questions.get(questionId) || null` returns the stored
object — here, its reference. -/
def QuestionManager.getAnswer (m : QuestionManager) (questionId : String) :
    Option Nat :=
  m.questions.get questionId

/-- The Question object a reference currently designates. -/
def QuestionManager.deref (m : QuestionManager) (r : Nat) :
    Option QuestionState :=
  m.heap.get r

/-- Operation `notifyResponseComplete`: `question.status = 'finished';
question.response = response;` mutates the stored object in place. -/
def QuestionManager.notifyResponseComplete (m : QuestionManager)
    (questionId response : String) : QuestionManager :=
  match m.questions.get questionId with
  | none => m
  | some r =>
      match m.heap.get r with
      | none => m
      | some q =>
          { m with
            heap :=
              m.heap.set r
                { q with status := Status.finished,
                         response := some response } }

/-- Operation `notifyError`: in-place mutation of the stored object. -/
def QuestionManager.notifyError (m : QuestionManager)
    (questionId error : String) : QuestionManager :=
  match m.questions.get questionId with
  | none => m
  | some r =>
      match m.heap.get r with
      | none => m
      | some q =>
          { m with
            heap :=
              m.heap.set r
                { q with status := Status.error, error := some error } }

/-- Operation `getAllQuestions`: `Array.from(this.questions.values())` — a fresh
array, but of the same object references. -/
def QuestionManager.getAllQuestions (m : QuestionManager) : List Nat :=
  m.questions.values

end Ref

/-! ### Helper lemmas -/

theorem getAnswer_submit_self (m : QuestionManager) (id : String) (now : Nat)
    (text : String) :
    ((m.submitQuestion id now text).2).getAnswer id =
      some ⟨id, Status.thinking, text, none, none, now⟩ := by
  simp [QuestionManager.submitQuestion, QuestionManager.getAnswer,
    JsMap.get_set]

theorem getAnswer_notifyResponseComplete_self (m : QuestionManager)
    (id response : String) (q : QuestionState)
    (h : m.getAnswer id = some q) :
    (m.notifyResponseComplete id response).getAnswer id =
      some { q with status := Status.finished, response := some response } := by
  unfold QuestionManager.getAnswer at h
  simp [QuestionManager.notifyResponseComplete, QuestionManager.getAnswer, h,
    JsMap.get_set]

theorem getAnswer_notifyError_self (m : QuestionManager)
    (id error : String) (q : QuestionState)
    (h : m.getAnswer id = some q) :
    (m.notifyError id error).getAnswer id =
      some { q with status := Status.error, error := some error } := by
  unfold QuestionManager.getAnswer at h
  simp [QuestionManager.notifyError, QuestionManager.getAnswer, h,
    JsMap.get_set]

/-! ### C7 — resolve/fail on an absent id -/

/-- C7: for every id absent from the Ledger, `notifyResponseComplete`
(resolve) and `notifyError` (fail) leave the entire Ledger state unchanged
and raise no error. -/
theorem c7_absent_id_noop (m : QuestionManager) (id response error : String)
    (h : m.getAnswer id = none) :
    m.notifyResponseComplete id response = m ∧ m.notifyError id error = m := by
  unfold QuestionManager.getAnswer at h
  constructor
  · simp [QuestionManager.notifyResponseComplete, h]
  · simp [QuestionManager.notifyError, h]

/-- Witness for C7 at a concrete manager and id. -/
theorem c7_absent_id_noop_witness :
    QuestionManager.empty.getAnswer "q_missing" = none ∧
    (QuestionManager.empty.notifyResponseComplete "q_missing" "r" =
        QuestionManager.empty ∧
      QuestionManager.empty.notifyError "q_missing" "e" =
        QuestionManager.empty) :=
  ⟨rfl, c7_absent_id_noop QuestionManager.empty "q_missing" "r" "e" rfl⟩

/-! ### C9 — the Bridge's active-question marker -/

/-- C9: `TuiIntegration.notifyResponseComplete` and
`TuiIntegration.notifyError` clear `currentQuestionId` exactly when the
notified id equals the current one, and leave it unchanged otherwise. -/
theorem c9_current_question_marker (st : TuiIntegration) (q : String) :
    (st.notifyResponseComplete q).currentQuestionId =
      (if st.currentQuestionId = some q then none
       else st.currentQuestionId) ∧
    (st.notifyError q).currentQuestionId =
      (if st.currentQuestionId = some q then none
       else st.currentQuestionId) :=
  ⟨rfl, rfl⟩

/-! ### C10 — no rollback of the Ledger entry on a routing error -/

/-- C10: when the `ask` tool runs with no submit handler configured, it
surfaces the routing error, yet the Question created by `submitQuestion`
stays in the Ledger with status `thinking` (pending) and is observable via
`getAnswer`. -/
theorem c10_no_rollback (m : QuestionManager) (freshId : String) (now : Nat)
    (text : String) (stream : Bool) (trace : Nat → Option QuestionState) :
    (McpServerService.ask m false freshId now text stream trace).1 =
      AskOutcome.routingError
        "MCP server not properly integrated with TUI - no submit handler set" ∧
    ((McpServerService.ask m false freshId now text stream trace).2).getAnswer
        freshId =
      some ⟨freshId, Status.thinking, text, none, none, now⟩ := by
  constructor
  · rfl
  · simp [McpServerService.ask, QuestionManager.submitQuestion,
      QuestionManager.getAnswer, JsMap.get_set]

/-! ### C8 — requests routed by an absent session id -/

/-- C8: for a session id with no entry in the transports table, the POST,
GET and DELETE `/mcp` routes all answer a 400 client error, never crash. -/
theorem c8_absent_session (transports : List String) (sid : String)
    (isInitialize : Bool) (h : transports.contains sid = false) :
    McpServerService.postMcp transports (some sid) isInitialize =
      McpServerService.McpRouteResult.status400
        "Bad Request: No valid session ID provided" ∧
    McpServerService.getMcp transports (some sid) =
      McpServerService.McpRouteResult.status400
        "Invalid or missing session ID" ∧
    McpServerService.deleteMcp transports (some sid) =
      McpServerService.McpRouteResult.status400
        "Invalid or missing session ID" := by
  have h' : ¬(sid ∈ transports) := by simpa using h
  refine ⟨?_, ?_, ?_⟩ <;>
    simp [McpServerService.postMcp, McpServerService.getMcp,
      McpServerService.deleteMcp, h, h']

/-- Witness for C8: a closed session id (absent from a nonempty table). -/
theorem c8_absent_session_witness :
    (["sessA"].contains "sessB" = false) ∧
    (McpServerService.postMcp ["sessA"] (some "sessB") true =
        McpServerService.McpRouteResult.status400
          "Bad Request: No valid session ID provided" ∧
      McpServerService.getMcp ["sessA"] (some "sessB") =
        McpServerService.McpRouteResult.status400
          "Invalid or missing session ID" ∧
      McpServerService.deleteMcp ["sessA"] (some "sessB") =
        McpServerService.McpRouteResult.status400
          "Invalid or missing session ID") :=
  ⟨by decide, c8_absent_session ["sessA"] "sessB" true (by decide)⟩

/-! ### C1 — duplicate notifications on a terminal Question -/

/-- Counterexample to C1: after `resolve(q1, "4")`, a second
`resolve(q1, "5")` overwrites the response (the first `r` is not retained),
and `fail(q1, "boom")` moves the Question out of the answered state. -/
theorem c1_counterexample :
    ((runOps [LedgerOp.submit "q1" 0 "What is 2+2?",
        LedgerOp.resolve "q1" "4"]).notifyResponseComplete "q1"
          "5").getAnswer "q1" =
      some ⟨"q1", Status.finished, "What is 2+2?", some "5", none, 0⟩ ∧
    (some "5" : Option String) ≠ some "4" ∧
    ((runOps [LedgerOp.submit "q1" 0 "What is 2+2?",
        LedgerOp.resolve "q1" "4"]).notifyError "q1" "boom").getAnswer "q1" =
      some ⟨"q1", Status.error, "What is 2+2?", some "4", some "boom", 0⟩ ∧
    Status.error ≠ Status.finished := by
  refine ⟨by decide, by decide, by decide, by decide⟩

/-- C1 amended: the notify operations are not guarded by the terminal
state — the last notification wins.  After `resolve(id, r)`, a second
`resolve(id, r')` leaves the Question answered but with `r'` replacing `r`,
and `fail(id, e)` moves it to failed with `e` stored (the earlier response
remaining alongside). -/
theorem c1_last_notification_wins (m : QuestionManager)
    (id r r' e : String) (q : QuestionState)
    (h : m.getAnswer id = some q) :
    ((m.notifyResponseComplete id r).notifyResponseComplete id r').getAnswer
        id =
      some { q with status := Status.finished, response := some r' } ∧
    ((m.notifyResponseComplete id r).notifyError id e).getAnswer id =
      some { q with status := Status.error, response := some r,
                    error := some e } := by
  have h1 := getAnswer_notifyResponseComplete_self m id r q h
  constructor
  · have h2 := getAnswer_notifyResponseComplete_self
      (m.notifyResponseComplete id r) id r' _ h1
    simpa using h2
  · have h2 := getAnswer_notifyError_self
      (m.notifyResponseComplete id r) id e _ h1
    simpa using h2

/-- Witness for C1's amended theorem at a concrete submitted question. -/
theorem c1_last_notification_wins_witness :
    (runOps [LedgerOp.submit "q1" 7 "hi"]).getAnswer "q1" =
      some ⟨"q1", Status.thinking, "hi", none, none, 7⟩ ∧
    (((runOps [LedgerOp.submit "q1" 7 "hi"]).notifyResponseComplete "q1"
          "a").notifyResponseComplete "q1" "b").getAnswer "q1" =
      some ⟨"q1", Status.finished, "hi", some "b", none, 7⟩ ∧
    (((runOps [LedgerOp.submit "q1" 7 "hi"]).notifyResponseComplete "q1"
          "a").notifyError "q1" "e").getAnswer "q1" =
      some ⟨"q1", Status.error, "hi", some "a", some "e", 7⟩ := by
  have h := c1_last_notification_wins (runOps [LedgerOp.submit "q1" 7 "hi"])
    "q1" "a" "b" "e" ⟨"q1", Status.thinking, "hi", none, none, 7⟩ (by decide)
  exact ⟨by decide, h.1, h.2⟩

/-! ### C3 — where input validation happens -/

theorem postQuestion_invalid (m : QuestionManager) (freshId : String)
    (now : Nat) (t : String) (h : (jsTrim t).length = 0) :
    HttpServerService.postQuestion m (some t) freshId now =
      (HttpResult.badRequest HttpServerService.invalidTextMessage, m) := by
  simp [HttpServerService.postQuestion, h]

theorem postQuestion_valid (m : QuestionManager) (freshId : String)
    (now : Nat) (t : String) (h : (jsTrim t).length ≠ 0) :
    (HttpServerService.postQuestion m (some t) freshId now).1 =
      HttpResult.ok freshId ∧
    ((HttpServerService.postQuestion m (some t) freshId now).2).getAnswer
        freshId =
      some ⟨freshId, Status.thinking, jsTrim t, none, none, now⟩ := by
  constructor
  · simp [HttpServerService.postQuestion, h, QuestionManager.submitQuestion]
  · simp [HttpServerService.postQuestion, h, QuestionManager.submitQuestion,
      QuestionManager.getAnswer, JsMap.get_set]

/-- Counterexample to C3: the Ledger operation `submitQuestion` itself
performs no validation — submitting the empty string creates a pending
entry and returns its id, rather than rejecting with a validation error
before any state mutation. -/
theorem c3_counterexample :
    (QuestionManager.empty.submitQuestion "q1" 0 "").1 = "q1" ∧
    ((QuestionManager.empty.submitQuestion "q1" 0 "").2).getAnswer "q1" =
      some ⟨"q1", Status.thinking, "", none, none, 0⟩ ∧
    (QuestionManager.empty.submitQuestion "q1" 0 "").2 ≠
      QuestionManager.empty := by
  refine ⟨by decide, by decide, by decide⟩

/-- C3 amended: validation of empty/whitespace-only text lives in the Front
End A HTTP adapter, not in the Ledger.  `POST /question` rejects a missing
or whitespace-only `text` with a 400 validation error and no state
mutation; for any other text it creates a pending Question (with the
trimmed text) and returns its id.  The Ledger's own `submitQuestion`, and
the Front End B `ask` handler, accept any text unvalidated. -/
theorem c3_http_validation (m : QuestionManager) (freshId : String)
    (now : Nat) (t : String) :
    ((jsTrim t).length = 0 →
      HttpServerService.postQuestion m (some t) freshId now =
        (HttpResult.badRequest HttpServerService.invalidTextMessage, m)) ∧
    ((jsTrim t).length ≠ 0 →
      (HttpServerService.postQuestion m (some t) freshId now).1 =
          HttpResult.ok freshId ∧
        ((HttpServerService.postQuestion m (some t) freshId
              now).2).getAnswer freshId =
          some ⟨freshId, Status.thinking, jsTrim t, none, none, now⟩) ∧
    HttpServerService.postQuestion m none freshId now =
      (HttpResult.badRequest HttpServerService.invalidTextMessage, m) :=
  ⟨fun h => postQuestion_invalid m freshId now t h,
   fun h => postQuestion_valid m freshId now t h,
   rfl⟩

/-- Witness for C3's amended theorem, discharging the whitespace branch at
`"  "` and the valid branch at `" hi "`. -/
theorem c3_http_validation_witness :
    HttpServerService.postQuestion QuestionManager.empty (some "  ") "q1" 0 =
      (HttpResult.badRequest HttpServerService.invalidTextMessage,
        QuestionManager.empty) ∧
    (HttpServerService.postQuestion QuestionManager.empty (some " hi ") "q1"
        0).1 = HttpResult.ok "q1" ∧
    ((HttpServerService.postQuestion QuestionManager.empty (some " hi ") "q1"
        0).2).getAnswer "q1" =
      some ⟨"q1", Status.thinking, "hi", none, none, 0⟩ := by
  refine ⟨(c3_http_validation QuestionManager.empty "q1" 0 "  ").1 ?_, ?_⟩
  · decide
  · have h := (c3_http_validation QuestionManager.empty "q1" 0 " hi ").2.1
      (by decide)
    have e : jsTrim " hi " = "hi" := by decide
    rw [e] at h
    exact h

/-! ### C5 — submit through Front End A, then read back -/

/-- C5: for text that is non-empty after trimming, `POST /question` returns
the fresh id under which a pending Question is stored whose `request` is
the submitted text with surrounding whitespace trimmed, as `getAnswer`
immediately observes. -/
theorem c5_submit_then_get (m : QuestionManager) (freshId : String)
    (now : Nat) (t : String) (h : (jsTrim t).length ≠ 0) :
    (HttpServerService.postQuestion m (some t) freshId now).1 =
      HttpResult.ok freshId ∧
    ((HttpServerService.postQuestion m (some t) freshId now).2).getAnswer
        freshId =
      some ⟨freshId, Status.thinking, jsTrim t, none, none, now⟩ :=
  postQuestion_valid m freshId now t h

/-- Witness for C5 at the text `" What is 2+2? "`. -/
theorem c5_submit_then_get_witness :
    (HttpServerService.postQuestion QuestionManager.empty
        (some " What is 2+2? ") "q9" 3).1 = HttpResult.ok "q9" ∧
    ((HttpServerService.postQuestion QuestionManager.empty
        (some " What is 2+2? ") "q9" 3).2).getAnswer "q9" =
      some ⟨"q9", Status.thinking, "What is 2+2?", none, none, 3⟩ := by
  have h := c5_submit_then_get QuestionManager.empty "q9" 3 " What is 2+2? "
    (by decide)
  have e : jsTrim " What is 2+2? " = "What is 2+2?" := by decide
  rw [e] at h
  exact h

/-! ### C2 — which parts of the Question invariant hold -/

/-- A Ledger state is pending-clean when every stored Question still in
`thinking` state has neither `response` nor `error` set. -/
def PendingClean (m : QuestionManager) : Prop :=
  ∀ id q, m.getAnswer id = some q → q.status = Status.thinking →
    q.response = none ∧ q.error = none

theorem pendingClean_empty : PendingClean QuestionManager.empty := by
  intro id q h
  simp [QuestionManager.getAnswer, QuestionManager.empty, JsMap.get] at h

theorem pendingClean_applyOp (m : QuestionManager) (op : LedgerOp)
    (hm : PendingClean m) : PendingClean (applyOp m op) := by
  cases op with
  | submit id now text =>
      intro j q hj hq
      simp only [applyOp, QuestionManager.submitQuestion,
        QuestionManager.getAnswer, JsMap.get_set] at hj
      by_cases hji : j = id
      · rw [if_pos hji] at hj
        cases hj
        exact ⟨rfl, rfl⟩
      · rw [if_neg hji] at hj
        exact hm j q hj hq
  | resolve id r =>
      intro j q hj hq
      simp only [applyOp, QuestionManager.notifyResponseComplete] at hj
      cases hget : m.questions.get id with
      | none => rw [hget] at hj; exact hm j q hj hq
      | some q0 =>
          rw [hget] at hj
          simp only [QuestionManager.getAnswer, JsMap.get_set] at hj
          by_cases hji : j = id
          · rw [if_pos hji] at hj
            cases hj
            cases hq
          · rw [if_neg hji] at hj
            exact hm j q hj hq
  | fail id e =>
      intro j q hj hq
      simp only [applyOp, QuestionManager.notifyError] at hj
      cases hget : m.questions.get id with
      | none => rw [hget] at hj; exact hm j q hj hq
      | some q0 =>
          rw [hget] at hj
          simp only [QuestionManager.getAnswer, JsMap.get_set] at hj
          by_cases hji : j = id
          · rw [if_pos hji] at hj
            cases hj
            cases hq
          · rw [if_neg hji] at hj
            exact hm j q hj hq

theorem pendingClean_foldl (ops : List LedgerOp) :
    ∀ m : QuestionManager, PendingClean m →
      PendingClean (ops.foldl applyOp m) := by
  induction ops with
  | nil => intro m hm; exact hm
  | cons op rest ih =>
      intro m hm
      exact ih (applyOp m op) (pendingClean_applyOp m op hm)

/-- Counterexample to C2: running `submit; resolve; fail` on the same id
leaves a Question with BOTH `response` and `error` set — the "at most one
of the two is ever set" and "terminal Questions are immutable" parts of the
claimed invariant fail. -/
theorem c2_counterexample :
    (runOps [LedgerOp.submit "q1" 0 "hi", LedgerOp.resolve "q1" "4",
        LedgerOp.fail "q1" "boom"]).getAnswer "q1" =
      some ⟨"q1", Status.error, "hi", some "4", some "boom", 0⟩ ∧
    ¬((some "4" : Option String) = none ∨
      (some "boom" : Option String) = none) := by
  refine ⟨by decide, by decide⟩

/-- C2 amended: the part of the invariant the code keeps — along every
submit/resolve/fail sequence, a Question whose status is still `thinking`
(pending) has neither `response` nor `error` set; each field is first set
only by the transition that moves status out of pending.  The code does
NOT keep the other parts: both fields can be set on one Question (resolve
then fail), and terminal Questions are still overwritten by later
notifications. -/
theorem c2_pending_clean (ops : List LedgerOp) (id : String)
    (q : QuestionState) (h1 : (runOps ops).getAnswer id = some q)
    (h2 : q.status = Status.thinking) :
    q.response = none ∧ q.error = none :=
  pendingClean_foldl ops QuestionManager.empty pendingClean_empty id q h1 h2

/-- Witness for C2's amended theorem on a freshly submitted question. -/
theorem c2_pending_clean_witness :
    (runOps [LedgerOp.submit "q1" 0 "hi"]).getAnswer "q1" =
      some ⟨"q1", Status.thinking, "hi", none, none, 0⟩ ∧
    ((none : Option String) = none ∧ (none : Option String) = none) :=
  ⟨by decide,
    c2_pending_clean [LedgerOp.submit "q1" 0 "hi"] "q1"
      ⟨"q1", Status.thinking, "hi", none, none, 0⟩ (by decide) rfl⟩

/-! ### C4 — the bounded poll loop of the ask tool -/

/-- At poll attempt `j` the loop sees no terminal Question: either
`getAnswer` returned nothing, or the Question is still `thinking`. -/
def notTerminalAt (trace : Nat → Option QuestionState) (j : Nat) : Prop :=
  ∀ q, trace j = some q → q.status = Status.thinking

theorem pollFrom_hit (trace : Nat → Option QuestionState) (qid : String)
    (stream : Bool) :
    ∀ (fuel r k : Nat) (q : QuestionState), r ≤ k → k < r + fuel →
      (∀ j, r ≤ j → j < k → notTerminalAt trace j) →
      trace k = some q → q.status ≠ Status.thinking →
      McpServerService.pollFrom trace qid stream r fuel =
        (if q.status = Status.error then
          AskOutcome.failed (q.error.getD "TUI processing failed")
        else
          AskOutcome.answered
            ⟨qid, q.status, q.response.getD "No response received",
              q.createdAt, k * 2, stream⟩) := by
  intro fuel
  induction fuel with
  | zero => intro r k q hrk hlt _ _ _; omega
  | succ f ih =>
      intro r k q hrk hlt hclean htr hst
      by_cases hreq : r = k
      · subst hreq
        have hterm : q.status = Status.finished ∨ q.status = Status.error := by
          cases hq : q.status with
          | thinking => exact absurd hq hst
          | error => exact Or.inr rfl
          | finished => exact Or.inl rfl
        simp only [McpServerService.pollFrom, htr]
        rw [if_pos hterm]
      · have hrk' : r < k := lt_of_le_of_ne hrk hreq
        have step : McpServerService.pollFrom trace qid stream r (f + 1) =
            McpServerService.pollFrom trace qid stream (r + 1) f := by
          cases htr_r : trace r with
          | none => simp [McpServerService.pollFrom, htr_r]
          | some q' =>
              have hq' : q'.status = Status.thinking :=
                hclean r le_rfl hrk' q' htr_r
              simp [McpServerService.pollFrom, htr_r, hq']
        rw [step]
        exact ih (r + 1) k q hrk' (by omega)
          (fun j hj1 hj2 => hclean j (by omega) hj2) htr hst

theorem pollFrom_exhausted (trace : Nat → Option QuestionState)
    (qid : String) (stream : Bool) :
    ∀ (fuel r : Nat),
      (∀ j, r ≤ j → j < r + fuel → notTerminalAt trace j) →
      McpServerService.pollFrom trace qid stream r fuel =
        AskOutcome.timeout "TUI response timeout after 8 minutes" := by
  intro fuel
  induction fuel with
  | zero => intro r _; rfl
  | succ f ih =>
      intro r h
      have step : McpServerService.pollFrom trace qid stream r (f + 1) =
          McpServerService.pollFrom trace qid stream (r + 1) f := by
        cases htr : trace r with
        | none => simp [McpServerService.pollFrom, htr]
        | some q' =>
            have hq' : q'.status = Status.thinking :=
              h r le_rfl (by omega) q' htr
            simp [McpServerService.pollFrom, htr, hq']
      rw [step]
      exact ih (r + 1) (fun j hj1 hj2 => h j (by omega) (by omega))

/-- C4: the `ask` tool's poll loop runs at a fixed 2000 ms interval for at
most 240 attempts, and exits exactly as follows — if the Question first
becomes terminal at attempt `k < 240`, then `answered` yields the success
payload with the response, id, status, creation time and elapsed time
(`k * 2` seconds), while `error` surfaces the stored error message; if no
attempt in the 240 sees a terminal Question, it surfaces the timeout
failure. -/
theorem c4_bounded_poll (m : QuestionManager) (freshId : String) (now : Nat)
    (text : String) (stream : Bool) (trace : Nat → Option QuestionState) :
    McpServerService.maxRetries = 240 ∧
    McpServerService.pollInterval = 2000 ∧
    (∀ (k : Nat) (q : QuestionState), k < McpServerService.maxRetries →
      (∀ j, j < k → notTerminalAt trace j) → trace k = some q →
      q.status ≠ Status.thinking →
      (McpServerService.ask m true freshId now text stream trace).1 =
        (if q.status = Status.error then
          AskOutcome.failed (q.error.getD "TUI processing failed")
        else
          AskOutcome.answered
            ⟨freshId, q.status, q.response.getD "No response received",
              q.createdAt, k * 2, stream⟩)) ∧
    ((∀ j, j < McpServerService.maxRetries → notTerminalAt trace j) →
      (McpServerService.ask m true freshId now text stream trace).1 =
        AskOutcome.timeout "TUI response timeout after 8 minutes") := by
  refine ⟨rfl, rfl, ?_, ?_⟩
  · intro k q hk hclean htr hst
    have hask : (McpServerService.ask m true freshId now text stream
        trace).1 =
        McpServerService.pollFrom trace freshId stream 0
          McpServerService.maxRetries := rfl
    rw [hask]
    exact pollFrom_hit trace freshId stream McpServerService.maxRetries 0 k q
      (Nat.zero_le k) (by simpa using hk) (fun j _ hj2 => hclean j hj2) htr
      hst
  · intro h
    have hask : (McpServerService.ask m true freshId now text stream
        trace).1 =
        McpServerService.pollFrom trace freshId stream 0
          McpServerService.maxRetries := rfl
    rw [hask]
    exact pollFrom_exhausted trace freshId stream
      McpServerService.maxRetries 0
      (fun j _ hj2 => h j (by simpa using hj2))

/-- A concrete Ledger trace for the C4 witness: still thinking at poll 0,
answered from poll 1 on. -/
def c4Trace : Nat → Option QuestionState := fun n =>
  if n = 0 then some ⟨"q1", Status.thinking, "hi", none, none, 5⟩
  else some ⟨"q1", Status.finished, "hi", some "4", none, 5⟩

/-- Witness for C4: with `c4Trace`, the ask capability returns the success
payload at attempt 1, after 2 seconds of polling. -/
theorem c4_bounded_poll_witness :
    (McpServerService.ask QuestionManager.empty true "q1" 5 "hi" true
        c4Trace).1 =
      AskOutcome.answered ⟨"q1", Status.finished, "4", 5, 2, true⟩ := by
  have hclean : ∀ j, j < 1 → notTerminalAt c4Trace j := by
    intro j hj q hq
    have hj0 : j = 0 := by omega
    subst hj0
    have he : c4Trace 0 = some ⟨"q1", Status.thinking, "hi", none, none, 5⟩ :=
      rfl
    rw [he] at hq
    cases hq
    rfl
  have htr : c4Trace 1 = some ⟨"q1", Status.finished, "hi", some "4", none,
      5⟩ := rfl
  have h := (c4_bounded_poll QuestionManager.empty "q1" 5 "hi" true
      c4Trace).2.2.1 1 ⟨"q1", Status.finished, "hi", some "4", none, 5⟩
    (by decide) hclean htr (by decide)
  simpa using h

/-! ### C6 — what getAnswer and getAllQuestions hand to callers -/

/-- Counterexample to C6: `getAnswer` hands the caller the stored object
itself (reference `0`), and a later resolve mutates that very object — the
Question value reachable through the earlier call's return value changes,
so callers do hold a mutable reference into the Ledger's storage. -/
theorem c6_counterexample :
    ((Ref.QuestionManager.empty.submitQuestion "q1" 0 "hi").2).getAnswer
        "q1" = some 0 ∧
    ((Ref.QuestionManager.empty.submitQuestion "q1" 0 "hi").2).deref 0 =
      some ⟨"q1", Status.thinking, "hi", none, none, 0⟩ ∧
    (((Ref.QuestionManager.empty.submitQuestion "q1" 0
          "hi").2).notifyResponseComplete "q1" "4").deref 0 =
      some ⟨"q1", Status.finished, "hi", some "4", none, 0⟩ ∧
    (((Ref.QuestionManager.empty.submitQuestion "q1" 0
          "hi").2).notifyResponseComplete "q1" "4").deref 0 ≠
      ((Ref.QuestionManager.empty.submitQuestion "q1" 0 "hi").2).deref 0 := by
  refine ⟨by decide, by decide, by decide, by decide⟩

/-- C6 amended: `getAnswer` and `getAllQuestions` return live references
into the Ledger's storage, not copies — after a later resolve, the
reference handed out earlier still identifies the same stored object
(`getAllQuestions` returns the same reference list), and dereferencing it
now yields the mutated Question with the new status and response. -/
theorem c6_live_reference (m : Ref.QuestionManager) (id response : String)
    (r : Nat) (q : QuestionState)
    (h1 : m.getAnswer id = some r) (h2 : m.deref r = some q) :
    (m.notifyResponseComplete id response).getAnswer id = some r ∧
    (m.notifyResponseComplete id response).getAllQuestions =
      m.getAllQuestions ∧
    (m.notifyResponseComplete id response).deref r =
      some { q with status := Status.finished, response := some response } := by
  unfold Ref.QuestionManager.getAnswer at h1
  unfold Ref.QuestionManager.deref at h2
  refine ⟨?_, ?_, ?_⟩
  · simp [Ref.QuestionManager.notifyResponseComplete, h1, h2,
      Ref.QuestionManager.getAnswer]
  · simp [Ref.QuestionManager.notifyResponseComplete, h1, h2,
      Ref.QuestionManager.getAllQuestions]
  · simp [Ref.QuestionManager.notifyResponseComplete, h1, h2,
      Ref.QuestionManager.deref, JsMap.get_set]

/-- Witness for C6's amended theorem on a concrete one-question Ledger. -/
theorem c6_live_reference_witness :
    ((Ref.QuestionManager.empty.submitQuestion "q1" 0 "hi").2).getAnswer
        "q1" = some 0 ∧
    ((((Ref.QuestionManager.empty.submitQuestion "q1" 0
            "hi").2).notifyResponseComplete "q1" "4").getAnswer "q1" =
        some 0 ∧
      (((Ref.QuestionManager.empty.submitQuestion "q1" 0
            "hi").2).notifyResponseComplete "q1" "4").getAllQuestions =
        ((Ref.QuestionManager.empty.submitQuestion "q1" 0
            "hi").2).getAllQuestions ∧
      (((Ref.QuestionManager.empty.submitQuestion "q1" 0
            "hi").2).notifyResponseComplete "q1" "4").deref 0 =
        some ⟨"q1", Status.finished, "hi", some "4", none, 0⟩) :=
  ⟨by decide,
    c6_live_reference (Ref.QuestionManager.empty.submitQuestion "q1" 0
        "hi").2 "q1" "4" 0 ⟨"q1", Status.thinking, "hi", none, none, 0⟩
      (by decide) (by decide)⟩

end GeminiCli
